import Mathlib

set_option linter.unusedVariables false

/-!
Shallow embedding of the RFKC client project's data-access layer: the
pipeline / pipeline-status / user-status router, the form router's nested
JSON query, the credential-hashing module and the client pipeline store
slice. Tables are lists of typed rows, handlers are pure functions from a
table state to the new state and the HTTP status code, and queries that a
real database would reject (a reference to a column the table does not
have, a non-numeric text compared against an integer column) are modelled
by the handler taking its catch branch and answering 500.
-/

namespace RFKC

/-- Row of the "pipeline" table: columns id and name. -/
structure PipelineRow where
  id : Int
  name : String
  deriving Repr, DecidableEq

/-- Row of the "pipeline_status" table: columns id, pipeline_id, name and order. -/
structure PipelineStatusRow where
  id : Int
  pipeline_id : Int
  name : String
  order : Int
  deriving Repr, DecidableEq

/-- Row of the "user" table, restricted to the columns the pipeline router reads. -/
structure UserRow where
  id : Int
  username : String
  deriving Repr, DecidableEq

/-- Row of the "user_status" table. Modelled from the spec: the SQL schema file is not among the sources; the spec's data model gives UserStatus the columns user_id and pipeline_status_id (aka p_s_id), matching the columns the router's SELECT join and UPDATE use. -/
structure UserStatusRow where
  user_id : Int
  pipeline_status_id : Int
  deriving Repr, DecidableEq

/-- Integer parse as the database applies it when a text parameter is compared against an integer column: an optional sign followed by one or more digits, anything else is a coercion error. -/
def digitsToNat : List Char → Nat → Option Nat
  | [], acc => some acc
  | c :: cs, acc =>
    if c.isDigit then digitsToNat cs (acc * 10 + (c.toNat - 48)) else none

/-- Parse a string as an integer the way the database coerces a text parameter bound to an integer column; none models a coercion failure that makes the whole query fail. -/
def pgParseInt (s : String) : Option Int :=
  match s.data with
  | [] => none
  | '-' :: cs =>
    if cs.isEmpty then none else (digitsToNat cs 0).map (fun n => -(n : Int))
  | cs => (digitsToNat cs 0).map (fun n => (n : Int))

/-- Handler of DELETE /api/pipeline/:id: DELETE FROM "pipeline" WHERE id=$1, then 204; a missing id simply deletes nothing. -/
def deletePipelineHandler (db : List PipelineRow) (id : Int) : List PipelineRow × Nat :=
  (db.filter (fun r => !(decide (r.id = id))), 204)

/-- Handler of PUT /api/pipeline/:id: UPDATE "pipeline" SET "name"=$1 WHERE "id"=$2, then 200; a missing id simply updates nothing. -/
def updatePipelineHandler (db : List PipelineRow) (id : Int) (name : String) :
    List PipelineRow × Nat :=
  (db.map (fun r => if r.id = id then { r with name := name } else r), 200)

/-- Handler of PUT pipeline_status/:id. The source binds the parameter array [pipelineStatusId, pipelineStatusOrder, pipelineStatusName] to UPDATE "pipeline_status" SET "order"=$1, "name"=$2 WHERE "id"=$3, so the id value lands in the order column, the order value lands in the name column, and the name value is compared against the integer id column; a name that does not parse as an integer makes the query fail and the catch branch answers 500. -/
def updateStatusHandler (db : List PipelineStatusRow) (id order : Int) (name : String) :
    List PipelineStatusRow × Nat :=
  match pgParseInt name with
  | none => (db, 500)
  | some nameAsInt =>
    (db.map (fun r =>
      if r.id = nameAsInt then { r with order := id, name := toString order } else r), 200)

/-- Column names of the "user_status" table. Modelled from the spec: the SQL schema file is not among the sources; the spec lists the columns user_id and pipeline_status_id. -/
def userStatusColumns : List String := ["user_id", "pipeline_status_id"]

/-- Columns referenced by the WHERE clause of the DELETE issued by PUT /api/pipeline/user_status/remove: WHERE "user_id" = $1 and "pipeline_id" = $2. -/
def removeUserStatusWhereColumns : List String := ["user_id", "pipeline_id"]

/-- Handler of PUT /api/pipeline/user_status/remove. The DELETE's WHERE clause references the column pipeline_id; when a referenced column is not a column of the table the database rejects the statement, the promise rejects and the catch branch answers 500 with the table unchanged. The first branch (all referenced columns exist) is unreachable because pipeline_id is not a user_status column. -/
def removeUserStatusHandler (db : List UserStatusRow) (user_id pipeline_id : Int) :
    List UserStatusRow × Nat :=
  if removeUserStatusWhereColumns.all (fun c => userStatusColumns.contains c) then
    (db.filter (fun r => !(decide (r.user_id = user_id))), 204)
  else
    (db, 500)

/-- Handler of PUT /api/pipeline/user_status/:userId: UPDATE "user_status" SET "pipeline_status_id" = $1 WHERE "user_id" = $2, then 200; no condition beyond the user id, no transition table. -/
def updateUserStatusHandler (db : List UserStatusRow) (userId newPipelineStatusId : Int) :
    List UserStatusRow × Nat :=
  (db.map (fun r =>
    if r.user_id = userId then { r with pipeline_status_id := newPipelineStatusId } else r), 200)

/-- Database state the pipeline detail query reads: the four joined tables. -/
structure Db where
  pipeline : List PipelineRow
  pipeline_status : List PipelineStatusRow
  user_status : List UserStatusRow
  user : List UserRow

/-- Output row of GET /api/pipeline/:pipelineId: the selected columns of the join. -/
structure DetailRow where
  pipeline_name : String
  pipeline_status_id : Int
  pipeline_status_name : String
  order : Int
  user_id : Int
  username : String
  deriving Repr, DecidableEq

/-- Row set of the SELECT of GET /api/pipeline/:pipelineId before ORDER BY: FROM "user_status" JOIN pipeline_status ON user_status.pipeline_status_id = pipeline_status.id JOIN pipeline ON pipeline_status.pipeline_id = pipeline.id JOIN "user" ON user_status.user_id = "user".id WHERE pipeline.id = $1. -/
def pipelineDetailJoin (db : Db) (pipelineId : Int) : List DetailRow :=
  db.user_status.flatMap (fun us =>
    (db.pipeline_status.filter (fun ps => decide (us.pipeline_status_id = ps.id))).flatMap (fun ps =>
      (db.pipeline.filter (fun p => decide (ps.pipeline_id = p.id ∧ p.id = pipelineId))).flatMap (fun p =>
        (db.user.filter (fun u => decide (us.user_id = u.id))).map (fun u =>
          ⟨p.name, ps.id, ps.name, ps.order, u.id, u.username⟩))))

/-- Comparison used by ORDER BY pipeline_status.order (ascending). -/
def detailLE (a b : DetailRow) : Prop := a.order ≤ b.order

instance : DecidableRel detailLE := fun a b => inferInstanceAs (Decidable (a.order ≤ b.order))

instance : IsTotal DetailRow detailLE := ⟨fun a b => Int.le_total a.order b.order⟩

instance : IsTrans DetailRow detailLE := ⟨fun _ _ _ h1 h2 => le_trans h1 h2⟩

/-- Handler of GET /api/pipeline/:pipelineId: the join's rows ordered by pipeline_status.order, answered flat (no grouping) with 200. -/
def getPipelineDetailHandler (db : Db) (pipelineId : Int) : List DetailRow × Nat :=
  (List.insertionSort detailLE (pipelineDetailJoin db pipelineId), 200)

/-- Row of the "forms" table. -/
structure FormRow where
  id : Int
  name : String
  deriving Repr, DecidableEq

/-- Row of the "sections" table. -/
structure SectionRow where
  id : Int
  form_id : Int
  name : String
  description : String
  order : Int
  deriving Repr, DecidableEq

/-- Row of the "question" table; archived hides rather than deletes. -/
structure QuestionRow where
  id : Int
  section_id : Int
  question : String
  description : String
  order : Int
  answer_type : String
  archived : Bool
  deriving Repr, DecidableEq

/-- Row of the "multiple_choice_answers" table. -/
structure MCAnswerRow where
  id : Int
  question_id : Int
  answer : String
  deriving Repr, DecidableEq

/-- Database state the form router reads. -/
structure FormDb where
  forms : List FormRow
  sections : List SectionRow
  question : List QuestionRow
  multiple_choice_answers : List MCAnswerRow

/-- Output object built by json_build_object for a multiple-choice answer. -/
structure MCAnswerOut where
  id : Int
  answer : String
  deriving Repr, DecidableEq

/-- Output object built by json_build_object for a question; the query selects no question id. -/
structure QuestionOut where
  question : String
  description : String
  order : Int
  answer_type : String
  multiple_choice_answers : List MCAnswerOut
  deriving Repr, DecidableEq

/-- Output object built by json_build_object for a section. -/
structure SectionOut where
  id : Int
  order : Int
  name : String
  description : String
  questions : List QuestionOut
  deriving Repr, DecidableEq

/-- Output document of GET /api/form/:formId/all. -/
structure FormOut where
  id : Int
  name : String
  sections : List SectionOut
  deriving Repr, DecidableEq

/-- Subquery from multiple_choice_answers where question_id matches. -/
def mcAnswersFor (mcs : List MCAnswerRow) (questionId : Int) : List MCAnswerOut :=
  (mcs.filter (fun a => decide (a.question_id = questionId))).map (fun a => ⟨a.id, a.answer⟩)

/-- Question object as the query builds it from a question row. -/
def questionOut (mcs : List MCAnswerRow) (q : QuestionRow) : QuestionOut :=
  ⟨q.question, q.description, q.order, q.answer_type, mcAnswersFor mcs q.id⟩

/-- Subquery from question where question.section_id = sections.id and question.archived = false: archived questions are excluded at the query level. -/
def sectionQuestions (db : FormDb) (sectionId : Int) : List QuestionOut :=
  (db.question.filter (fun q => decide (q.section_id = sectionId ∧ q.archived = false))).map
    (questionOut db.multiple_choice_answers)

/-- Section object as the query builds it from a section row. -/
def sectionOut (db : FormDb) (s : SectionRow) : SectionOut :=
  ⟨s.id, s.order, s.name, s.description, sectionQuestions db s.id⟩

/-- Handler of GET /api/form/:formId/all: the nested document for the first forms row whose id matches (response.rows[0]); none when the form does not exist. -/
def getFormAllHandler (db : FormDb) (formId : Int) : Option FormOut :=
  (db.forms.find? (fun f => decide (f.id = formId))).map (fun f =>
    ⟨f.id, f.name, (db.sections.filter (fun s => decide (s.form_id = f.id))).map (sectionOut db)⟩)

/-- State change of setting archived = true on a question (the soft archive the spec describes; the abandoned form-edit route issues the same UPDATE question SET archived = true). The row stays in the table. -/
def archiveQuestion (db : FormDb) (questionId : Int) : FormDb :=
  { db with
    question := db.question.map (fun q =>
      if q.id = questionId then { q with archived := true } else q) }

/-- Row of the implied submission table. -/
structure SubmissionRow where
  id : Int
  form_id : Int
  user_id : Int
  deriving Repr, DecidableEq

/-- Modelled from the spec: the submission store slice and its server route are not among the sources (only the caller in FormPage.jsx is). Per the spec, create or get submission(form_id, user_id) looks up an existing submission for the (form, user) pair and creates one only when none exists; a created row gets a fresh id larger than every id in the table. -/
def createOrGetSubmission (db : List SubmissionRow) (formId userId : Int) :
    Int × List SubmissionRow :=
  match db.find? (fun s => decide (s.form_id = formId ∧ s.user_id = userId)) with
  | some s => (s.id, db)
  | none =>
    let newId : Int := (db.map (fun s => s.id)).foldr max 0 + 1
    (newId, db ++ [⟨newId, formId, userId⟩])

/-- Abstract interface of the bcryptjs library: core cost salt password is the raw salted hash the library computes. The library itself is an external dependency, so its hash core is a parameter of the model. -/
structure BcryptLib where
  core : Nat → String → String → String

/-- Self-describing digest a bcrypt hash returns: cost factor, the salt, and the raw hash, all encoded in the stored string. -/
structure Digest where
  cost : Nat
  salt : String
  mac : String
  deriving Repr, DecidableEq

/-- Cost factor the module passes to genSaltSync. -/
def SALT_WORK_FACTOR : Nat := 10

/-- encryptPassword from encryption.js: generate a salt with genSaltSync(SALT_WORK_FACTOR) (the random draw is the salt argument here) and return bcrypt.hashSync(password, salt), a digest embedding cost and salt. -/
def encryptPassword (lib : BcryptLib) (salt : String) (password : String) : Digest :=
  ⟨SALT_WORK_FACTOR, salt, lib.core SALT_WORK_FACTOR salt password⟩

/-- comparePassword from encryption.js: bcrypt.compareSync recomputes the hash of the candidate with the cost and salt embedded in the stored digest and compares it with the stored raw hash. -/
def comparePassword (lib : BcryptLib) (candidatePassword : String) (storedPassword : Digest) :
    Bool :=
  lib.core storedPassword.cost storedPassword.salt candidatePassword == storedPassword.mac

/-- Row of the GET /api/pipeline response the pipelines slice stores. -/
structure PipelineNameRow where
  name : String
  deriving Repr, DecidableEq

/-- Value of the selectedPipeline slice: the initial/reset empty object, or the rows fetched. -/
inductive SelectedPipelineVal where
  | emptyObj : SelectedPipelineVal
  | rows (rs : List DetailRow) : SelectedPipelineVal
  deriving Repr, DecidableEq

/-- The pipeline slice of the client store. -/
structure PipelineSliceState where
  pipelines : List PipelineNameRow
  selectedPipeline : SelectedPipelineVal
  deriving Repr, DecidableEq

/-- fetchPipeline store action: on success set pipelines to the response data, on failure log and set pipelines to []. -/
def fetchPipeline (s : PipelineSliceState) (res : Except Unit (List PipelineNameRow)) :
    PipelineSliceState :=
  match res with
  | .ok data => { s with pipelines := data }
  | .error _ => { s with pipelines := [] }

/-- fetchPipelineById store action: on success set selectedPipeline to the response data, on failure log and set selectedPipeline to the empty object. -/
def fetchPipelineById (s : PipelineSliceState) (res : Except Unit (List DetailRow)) :
    PipelineSliceState :=
  match res with
  | .ok data => { s with selectedPipeline := .rows data }
  | .error _ => { s with selectedPipeline := .emptyObj }

/-- addPipeline store action: POST the new pipeline; on success refresh by calling fetchPipeline (whose outcome is refreshRes); on failure only log — the catch branch sets nothing. -/
def addPipeline (s : PipelineSliceState) (postRes : Except Unit Unit)
    (refreshRes : Except Unit (List PipelineNameRow)) : PipelineSliceState :=
  match postRes with
  | .ok _ => fetchPipeline s refreshRes
  | .error _ => s

/-- Membership characterization of the pipeline detail join: a flat output row exists exactly for a matching combination of user_status, pipeline_status, pipeline and user rows with pipeline.id equal to the requested id. -/
theorem mem_pipelineDetailJoin (db : Db) (pipelineId : Int) (r : DetailRow) :
    r ∈ pipelineDetailJoin db pipelineId ↔
      ∃ us ∈ db.user_status, ∃ ps ∈ db.pipeline_status, ∃ p ∈ db.pipeline, ∃ u ∈ db.user,
        us.pipeline_status_id = ps.id ∧ ps.pipeline_id = p.id ∧ p.id = pipelineId ∧
        us.user_id = u.id ∧
        r = ⟨p.name, ps.id, ps.name, ps.order, u.id, u.username⟩ := by
  simp only [pipelineDetailJoin, List.mem_flatMap, List.mem_filter, List.mem_map,
    decide_eq_true_eq]
  constructor
  · rintro ⟨us, hus, ps, ⟨hps, h1⟩, p, ⟨hp, h2, h3⟩, u, ⟨hu, h4⟩, hr⟩
    exact ⟨us, hus, ps, hps, p, hp, u, hu, h1, h2, h3, h4, hr.symm⟩
  · rintro ⟨us, hus, ps, hps, p, hp, u, hu, h1, h2, h3, h4, hr⟩
    exact ⟨us, hus, ps, ⟨hps, h1⟩, p, ⟨hp, h2, h3⟩, u, ⟨hu, h4⟩, hr.symm⟩

/-- C4: for every pipeline id, GET /api/pipeline/:pipelineId answers 200 with exactly the flat row set of the user_status, pipeline_status, pipeline, user join restricted to that pipeline (a permutation of the join: no row added, dropped or grouped server-side), sorted ascending by pipeline_status.order. -/
theorem getPipelineDetail_sorted_join (db : Db) (pipelineId : Int) :
    (getPipelineDetailHandler db pipelineId).1.Perm (pipelineDetailJoin db pipelineId) ∧
    List.Sorted detailLE (getPipelineDetailHandler db pipelineId).1 ∧
    (getPipelineDetailHandler db pipelineId).2 = 200 :=
  ⟨List.perm_insertionSort detailLE _, List.sorted_insertionSort detailLE _, rfl⟩

/-- C10: the detail query is built from inner joins starting at user_status, so a pipeline status no user_status row references contributes no output row (empty Kanban columns are invisible), and a valid pipeline with statuses but an empty user_status table yields an empty array. -/
theorem getPipelineDetail_inner_join_empty (db : Db) (pipelineId sid : Int) :
    ((∀ us ∈ db.user_status, us.pipeline_status_id ≠ sid) →
      ∀ r ∈ (getPipelineDetailHandler db pipelineId).1, r.pipeline_status_id ≠ sid) ∧
    ((∃ p ∈ db.pipeline, p.id = pipelineId) →
      (∃ ps ∈ db.pipeline_status, ps.pipeline_id = pipelineId) →
      db.user_status = [] → (getPipelineDetailHandler db pipelineId).1 = []) := by
  constructor
  · intro hn r hr
    have hr' : r ∈ pipelineDetailJoin db pipelineId := by
      simpa [getPipelineDetailHandler] using hr
    rcases (mem_pipelineDetailJoin db pipelineId r).mp hr' with
      ⟨us, hus, ps, _, p, _, u, _, h1, _, _, _, hreq⟩
    subst hreq
    intro hcontra
    exact hn us hus (h1.trans hcontra)
  · intro _ _ hempty
    simp [getPipelineDetailHandler, pipelineDetailJoin, hempty, List.insertionSort]

/-- Witness for C10: a pipeline (id 1) with one status and no user assignment yields the empty array. -/
theorem getPipelineDetail_inner_join_empty_witness :
    (getPipelineDetailHandler ⟨[⟨1, "P"⟩], [⟨5, 1, "New", 1⟩], [], [⟨7, "alice"⟩]⟩ 1).1 = [] :=
  (getPipelineDetail_inner_join_empty ⟨[⟨1, "P"⟩], [⟨5, 1, "New", 1⟩], [], [⟨7, "alice"⟩]⟩ 1 5).2
    ⟨⟨1, "P"⟩, by simp, rfl⟩ ⟨⟨5, 1, "New", 1⟩, by simp, rfl⟩ rfl

/-- C3: move user is an unconditional UPDATE: every user_status row of the given user gets the new pipeline_status_id whatever its current value (any status moves to any status, no transition table), rows of other users pass through unchanged in both directions, and the handler answers 200. -/
theorem updateUserStatus_unconditional (db : List UserStatusRow) (userId newId : Int) :
    (updateUserStatusHandler db userId newId).2 = 200 ∧
    (∀ r ∈ db, r.user_id = userId →
      ({ r with pipeline_status_id := newId } : UserStatusRow) ∈
        (updateUserStatusHandler db userId newId).1) ∧
    (∀ r ∈ db, r.user_id ≠ userId → r ∈ (updateUserStatusHandler db userId newId).1) ∧
    (∀ r ∈ (updateUserStatusHandler db userId newId).1, r.user_id ≠ userId → r ∈ db) ∧
    (∀ r ∈ (updateUserStatusHandler db userId newId).1, r.user_id = userId →
      r.pipeline_status_id = newId) := by
  simp only [updateUserStatusHandler]
  refine ⟨trivial, ?_, ?_, ?_, ?_⟩
  · intro r hr h
    exact List.mem_map.mpr ⟨r, hr, by simp [h]⟩
  · intro r hr h
    exact List.mem_map.mpr ⟨r, hr, by simp [h]⟩
  · intro r hr h
    rcases List.mem_map.mp hr with ⟨x, hx, hfx⟩
    by_cases hu : x.user_id = userId
    · exfalso
      apply h
      rw [← hfx]
      simp [hu]
    · rw [← hfx]
      simpa [hu] using hx
  · intro r hr h
    rcases List.mem_map.mp hr with ⟨x, hx, hfx⟩
    by_cases hu : x.user_id = userId
    · rw [← hfx]
      simp [hu]
    · rw [← hfx] at h
      simp [hu] at h

/-- Witness for C3: user 1 moves from status 10 to status 99 while user 2's row stays. -/
theorem updateUserStatus_unconditional_witness :
    (⟨1, 99⟩ : UserStatusRow) ∈ (updateUserStatusHandler [⟨1, 10⟩, ⟨2, 20⟩] 1 99).1 ∧
    (⟨2, 20⟩ : UserStatusRow) ∈ (updateUserStatusHandler [⟨1, 10⟩, ⟨2, 20⟩] 1 99).1 :=
  ⟨(updateUserStatus_unconditional [⟨1, 10⟩, ⟨2, 20⟩] 1 99).2.1 ⟨1, 10⟩ (by simp) rfl,
   (updateUserStatus_unconditional [⟨1, 10⟩, ⟨2, 20⟩] 1 99).2.2.1 ⟨2, 20⟩ (by simp) (by decide)⟩

/-- C8: deleting or renaming a pipeline by an id no row has silently succeeds: the table is unchanged and the handlers still answer 204 respectively 200, never 404. -/
theorem pipeline_missing_id_silent (db : List PipelineRow) (id : Int) (name : String)
    (h : ∀ r ∈ db, r.id ≠ id) :
    deletePipelineHandler db id = (db, 204) ∧ updatePipelineHandler db id name = (db, 200) := by
  constructor
  · unfold deletePipelineHandler
    have hdb : db.filter (fun r => !(decide (r.id = id))) = db := by
      apply List.filter_eq_self.mpr
      intro a ha
      simpa using h a ha
    rw [hdb]
  · unfold updatePipelineHandler
    have hdb : db.map (fun r => if r.id = id then { r with name := name } else r) = db := by
      conv_rhs => rw [← List.map_id db]
      apply List.map_congr_left
      intro a ha
      simp [h a ha]
    rw [hdb]

/-- Witness for C8: the one-row table with id 1 is untouched by delete/rename of id 2. -/
theorem pipeline_missing_id_silent_witness :
    deletePipelineHandler [⟨1, "A"⟩] 2 = ([⟨1, "A"⟩], 204) ∧
    updatePipelineHandler [⟨1, "A"⟩] 2 "B" = ([⟨1, "A"⟩], 200) :=
  pipeline_missing_id_silent [⟨1, "A"⟩] 2 "B" (by decide)

/-- C1: code bug in PUT pipeline_status/:id, shown at the failing input id 3, order 2, name "Screening" over a table holding the row (id 3, pipeline_id 1, name "Applied", order 5): the parameter array [id, order, name] is bound against SET "order"=$1, "name"=$2 WHERE "id"=$3, so the name is coerced against the integer id column, the query fails and the handler answers 500 with the table unchanged — instead of setting the row's order to 2 and its name to "Screening" and answering 200 as claimed. -/
theorem updateStatus_failing_input :
    updateStatusHandler [⟨3, 1, "Applied", 5⟩] 3 2 "Screening" = ([⟨3, 1, "Applied", 5⟩], 500) ∧
    updateStatusHandler [⟨3, 1, "Applied", 5⟩] 3 2 "Screening" ≠ ([⟨3, 1, "Screening", 2⟩], 200) := by
  decide

/-- C2: code bug in PUT /api/pipeline/user_status/remove: for every table state, user id and pipeline id the handler answers 500 and deletes nothing, because the DELETE's WHERE clause references pipeline_id, which is not a column of user_status — the claimed 204 with the row deleted is never produced. -/
theorem removeUserStatus_always500 (db : List UserStatusRow) (user_id pipeline_id : Int) :
    removeUserStatusHandler db user_id pipeline_id = (db, 500) :=
  rfl

/-- Membership characterization of the questions array the query builds for a section: exactly the non-archived question rows of that section, projected through json_build_object. -/
theorem mem_sectionQuestions (db : FormDb) (sectionId : Int) (qo : QuestionOut) :
    qo ∈ sectionQuestions db sectionId ↔
      ∃ q ∈ db.question, q.section_id = sectionId ∧ q.archived = false ∧
        qo = questionOut db.multiple_choice_answers q := by
  simp only [sectionQuestions, List.mem_map, List.mem_filter, decide_eq_true_eq]
  constructor
  · rintro ⟨q, ⟨hq, h1, h2⟩, hqo⟩
    exact ⟨q, hq, h1, h2, hqo.symm⟩
  · rintro ⟨q, hq, h1, h2, hqo⟩
    exact ⟨q, ⟨hq, h1, h2⟩, hqo.symm⟩

/-- Every section object of the nested document carries exactly the section-question array of the state for its id. -/
theorem questions_of_getFormAll (db : FormDb) (formId : Int) (fout : FormOut)
    (h : getFormAllHandler db formId = some fout) :
    ∀ so ∈ fout.sections, so.questions = sectionQuestions db so.id := by
  unfold getFormAllHandler at h
  rcases hf : db.forms.find? (fun f => decide (f.id = formId)) with _ | f
  · rw [hf] at h
    simp at h
  · rw [hf] at h
    simp only [Option.map_some'] at h
    injection h with h
    subst h
    intro so hso
    rcases List.mem_map.mp hso with ⟨s, _, rfl⟩
    rfl

/-- Structural facts about archiving a question: the table keeps its row count, the multiple-choice table is untouched, the archived copy of every matching row is present, every row with the archived id is flagged, and every still-unarchived row is an original row with a different id. -/
theorem archiveQuestion_facts (db : FormDb) (questionId : Int) :
    (archiveQuestion db questionId).question.length = db.question.length ∧
    (archiveQuestion db questionId).multiple_choice_answers = db.multiple_choice_answers ∧
    (∀ q ∈ db.question, q.id = questionId →
      ({ q with archived := true } : QuestionRow) ∈ (archiveQuestion db questionId).question) ∧
    (∀ q ∈ (archiveQuestion db questionId).question, q.archived = false →
      q ∈ db.question ∧ q.id ≠ questionId) := by
  refine ⟨List.length_map _ _, rfl, ?_, ?_⟩
  · intro q hq h
    exact List.mem_map.mpr ⟨q, hq, by simp [h]⟩
  · intro q hq harch
    rcases List.mem_map.mp hq with ⟨x, hx, hfx⟩
    by_cases hid : x.id = questionId
    · rw [← hfx] at harch
      simp [hid] at harch
    · rw [← hfx]
      simpa [hid] using And.intro hx hid

/-- C5: the nested document of GET /api/form/:formId/all contains exactly the form's non-archived questions: every question object of a section comes from a question row of that section with archived = false, every such row appears, and after setting archived = true on a question the document of the updated state only shows questions coming from other, still-unarchived rows, while the archived row itself stays stored (row count unchanged, archived copy present). -/
theorem getFormAll_unarchived_questions (db : FormDb) (formId : Int) (fout : FormOut)
    (h : getFormAllHandler db formId = some fout) :
    (∀ so ∈ fout.sections, ∀ qo ∈ so.questions,
      ∃ q ∈ db.question, q.archived = false ∧ q.section_id = so.id ∧
        qo = questionOut db.multiple_choice_answers q) ∧
    (∀ so ∈ fout.sections, ∀ q ∈ db.question, q.section_id = so.id → q.archived = false →
      questionOut db.multiple_choice_answers q ∈ so.questions) ∧
    (∀ questionId, (archiveQuestion db questionId).question.length = db.question.length ∧
      ∀ q ∈ db.question, q.id = questionId →
        ({ q with archived := true } : QuestionRow) ∈ (archiveQuestion db questionId).question) ∧
    (∀ questionId (fout2 : FormOut),
      getFormAllHandler (archiveQuestion db questionId) formId = some fout2 →
      ∀ so ∈ fout2.sections, ∀ qo ∈ so.questions,
        ∃ q ∈ db.question, q.id ≠ questionId ∧ q.archived = false ∧ q.section_id = so.id ∧
          qo = questionOut db.multiple_choice_answers q) := by
  refine ⟨?_, ?_, ?_, ?_⟩
  · intro so hso qo hqo
    rw [questions_of_getFormAll db formId fout h so hso] at hqo
    rcases (mem_sectionQuestions db so.id qo).mp hqo with ⟨q, hq, h1, h2, h3⟩
    exact ⟨q, hq, h2, h1, h3⟩
  · intro so hso q hq h1 h2
    rw [questions_of_getFormAll db formId fout h so hso]
    exact (mem_sectionQuestions db so.id _).mpr ⟨q, hq, h1, h2, rfl⟩
  · intro questionId
    exact ⟨(archiveQuestion_facts db questionId).1, (archiveQuestion_facts db questionId).2.2.1⟩
  · intro questionId fout2 h2 so hso qo hqo
    rw [questions_of_getFormAll (archiveQuestion db questionId) formId fout2 h2 so hso] at hqo
    rcases (mem_sectionQuestions (archiveQuestion db questionId) so.id qo).mp hqo with
      ⟨q, hq, hsec, harch, hqo'⟩
    rcases (archiveQuestion_facts db questionId).2.2.2 q hq harch with ⟨hqdb, hqid⟩
    refine ⟨q, hqdb, hqid, harch, hsec, ?_⟩
    rw [hqo']
    rfl

/-- Witness for C5: a one-form, one-section, one-question state; the question shows up in the document, and its archived copy is stored after archiving. -/
theorem getFormAll_unarchived_questions_witness :
    questionOut [] ⟨10, 4, "Q1", "", 1, "text", false⟩ ∈
      (SectionOut.mk 4 1 "S" "d" [⟨"Q1", "", 1, "text", []⟩]).questions ∧
    ({ (⟨10, 4, "Q1", "", 1, "text", false⟩ : QuestionRow) with archived := true } : QuestionRow) ∈
      (archiveQuestion ⟨[⟨1, "F"⟩], [⟨4, 1, "S", "d", 1⟩], [⟨10, 4, "Q1", "", 1, "text", false⟩], []⟩
        10).question :=
  ⟨(getFormAll_unarchived_questions
      ⟨[⟨1, "F"⟩], [⟨4, 1, "S", "d", 1⟩], [⟨10, 4, "Q1", "", 1, "text", false⟩], []⟩ 1
      ⟨1, "F", [⟨4, 1, "S", "d", [⟨"Q1", "", 1, "text", []⟩]⟩]⟩ rfl).2.1
      ⟨4, 1, "S", "d", [⟨"Q1", "", 1, "text", []⟩]⟩ (by simp)
      ⟨10, 4, "Q1", "", 1, "text", false⟩ (by simp) rfl rfl,
   ((getFormAll_unarchived_questions
      ⟨[⟨1, "F"⟩], [⟨4, 1, "S", "d", 1⟩], [⟨10, 4, "Q1", "", 1, "text", false⟩], []⟩ 1
      ⟨1, "F", [⟨4, 1, "S", "d", [⟨"Q1", "", 1, "text", []⟩]⟩]⟩ rfl).2.2.1 10).2
      ⟨10, 4, "Q1", "", 1, "text", false⟩ (by simp) rfl⟩

/-- C6: create or get submission is idempotent: calling it twice with the same form id and user id returns the same submission id both times, and the second call leaves the table unchanged. -/
theorem createOrGetSubmission_idempotent (db : List SubmissionRow) (formId userId : Int) :
    (createOrGetSubmission (createOrGetSubmission db formId userId).2 formId userId).1 =
      (createOrGetSubmission db formId userId).1 ∧
    (createOrGetSubmission (createOrGetSubmission db formId userId).2 formId userId).2 =
      (createOrGetSubmission db formId userId).2 := by
  rcases hf : db.find? (fun s => decide (s.form_id = formId ∧ s.user_id = userId)) with _ | s
  · unfold createOrGetSubmission
    simp only [hf]
    rw [List.find?_append, hf]
    simp
  · have hf' : db.find? (fun s => decide (s.form_id = formId) && decide (s.user_id = userId)) =
        some s := by
      simpa using hf
    refine ⟨?_, ?_⟩ <;> simp [createOrGetSubmission, hf, hf']

/-- C7: hash then verify round-trips: comparePassword accepts the password encryptPassword hashed, recovering cost and salt from the digest, and rejects every other password provided the library's hash core is injective for that cost and salt (the collision-freedom the code delegates to bcrypt). -/
theorem hash_verify_roundtrip (lib : BcryptLib) (salt p p2 : String)
    (hinj : ∀ a b, lib.core SALT_WORK_FACTOR salt a = lib.core SALT_WORK_FACTOR salt b → a = b)
    (hne : p2 ≠ p) :
    comparePassword lib p (encryptPassword lib salt p) = true ∧
    comparePassword lib p2 (encryptPassword lib salt p) = false := by
  constructor
  · simp [comparePassword, encryptPassword]
  · simp only [comparePassword, encryptPassword]
    rw [beq_eq_false_iff_ne]
    intro hEq
    exact hne (hinj p2 p hEq)

/-- Witness for C7 with a concrete injective library core: the password "a" verifies against its own digest and "b" does not. -/
theorem hash_verify_roundtrip_witness :
    comparePassword ⟨fun _ _ pw => pw⟩ "a" (encryptPassword ⟨fun _ _ pw => pw⟩ "somesalt" "a") =
      true ∧
    comparePassword ⟨fun _ _ pw => pw⟩ "b" (encryptPassword ⟨fun _ _ pw => pw⟩ "somesalt" "a") =
      false :=
  hash_verify_roundtrip ⟨fun _ _ pw => pw⟩ "somesalt" "a" "b" (fun _ _ hab => hab) (by decide)

/-- C9 counterexample: addPipeline is a store action whose catch branch does not reset the pipelines slice: after a failed POST against a store holding one pipeline, the slice still holds it instead of the claimed empty value. -/
theorem addPipeline_error_keeps_state :
    (addPipeline ⟨[⟨"Volunteer"⟩], .emptyObj⟩ (.error ()) (.ok [])).pipelines ≠ [] := by
  decide

/-- C9 amended: the fetch actions reset their slice to its empty value on request failure ([] for pipelines, the empty object for selectedPipeline) and unconditionally overwrite it on success, with no retry; addPipeline on failure only logs and leaves the store unchanged, and on success refreshes by running fetchPipeline instead of writing the slice directly. -/
theorem pipelineSlice_error_handling (s : PipelineSliceState) (e u : Unit)
    (d : List PipelineNameRow) (d2 : List DetailRow) (r : Except Unit (List PipelineNameRow)) :
    fetchPipeline s (.error e) = { s with pipelines := [] } ∧
    fetchPipeline s (.ok d) = { s with pipelines := d } ∧
    fetchPipelineById s (.error e) = { s with selectedPipeline := .emptyObj } ∧
    fetchPipelineById s (.ok d2) = { s with selectedPipeline := .rows d2 } ∧
    addPipeline s (.error e) r = s ∧
    addPipeline s (.ok u) r = fetchPipeline s r :=
  ⟨rfl, rfl, rfl, rfl, rfl, rfl⟩

end RFKC
